import Mathlib

/-!
Verification of the fileShare backend (github.com/i-christian/fileShare).

This file shallowly embeds the parts of the Go source that the spec's
claims are about: the file-lifecycle service (`internal/files/service.go`),
the sqlc query layer (`internal/db/queries/*.sql` over the schema in
`internal/db/schema/001_base.sql`), the credential subsystem
(`internal/auth/service.go`, `internal/auth/apikey_service.go`,
`internal/auth/types.go`), and the authentication middleware
(`internal/middlewares/middleware.go`).

Modelling conventions:
 * UUIDs are `Nat`, timestamps are `Int` (Unix seconds; `0` stands for Go's
   zero `time.Time`), byte streams are `List Nat`, and the SQL tables are
   association lists of row structures.
 * SHA-256 (`crypto/sha256`), HMAC-SHA256 (`golang-jwt` signing) and bcrypt
   (`security.VerifyPassword`) are opaque to every claim, so they enter the
   definitions as function parameters; each theorem holds for every such
   function and each witness instantiates them with small concrete ones.
 * The object store is modelled after the disk backend
   (`internal/filestore/disk.go`): `Save` truncates/overwrites the object at
   the key and reports the number of bytes written, `Delete` removes the key.
 * Go's `(value, error)` returns become `Except`; a database round trip whose
   failure arm a claim depends on is passed in as an explicit
   `Except`-valued argument, with the honest outcome computed from the
   modelled table by a separate wrapper.
-/

namespace FileShare

/-- Enum `file_visibility` from `001_base.sql` (`'public' | 'private'`). -/
inductive FileVisibility
  | public
  | priv
deriving DecidableEq, Repr

/-- Row of the `files` table (001_base.sql): visibility defaults to
`'private'`, `is_deleted` to `false`, `version` to `0`. -/
structure FileRow where
  fileId : Nat
  userId : Nat
  filename : String
  storageKey : String
  mimeType : String
  sizeBytes : Int
  visibility : FileVisibility
  thumbnailKey : Option String
  checksum : String
  isDeleted : Bool
  deletedAt : Option Int
  version : Int
deriving DecidableEq, Repr

/-- Errors of `internal/utils/errors.go` together with the ad-hoc
`fmt.Errorf`/`errors.New` errors the embedded services return. -/
inductive Err
  | recordNotFound      -- utils.ErrRecordNotFound
  | editConflict        -- utils.ErrEditConflict
  | authRequired        -- utils.ErrAuthRequired
  | notPermitted        -- utils.ErrNotPermitted
  | duplicateUpload     -- utils.ErrDuplicateUpload
  | unexpected          -- utils.ErrUnexpectedError (possibly joined)
  | tooLarge            -- fmt.Errorf("file size is too large")
  | storageError        -- fmt.Errorf("storage error")
  | invalidToken        -- auth.ErrInvalidToken
  | expiredToken        -- auth.ErrExpiredToken
  | invalidApiKeyFormat -- errors.New("invalid api key format")
  | invalidApiKey       -- errors.New("invalid api key") / "invalid api key prefix"
  | apiKeyExpired       -- errors.New("api key has expired")
deriving DecidableEq, Repr

/-! ### Object store (internal/filestore/disk.go, FileStorage interface) -/

/-- A saved object: storage key paired with its bytes. -/
abbrev Store := List (String × List Nat)

/-- `Save(file, path)`: `root.Create` truncates an existing object at the
key, then the whole stream is copied in. -/
def storeSave (store : Store) (key : String) (content : List Nat) : Store :=
  store.filter (fun kv => kv.1 ≠ key) ++ [(key, content)]

/-- `Delete(path)`: removes the object at the key (idempotent). -/
def storeDelete (store : Store) (key : String) : Store :=
  store.filter (fun kv => kv.1 ≠ key)

/-- `Get(path)`: the bytes stored at the key, if present. -/
def storeGet (store : Store) (key : String) : Option (List Nat) :=
  (store.find? (fun kv => kv.1 = key)).map (fun kv => kv.2)

/-- The objects in the store whose content hashes to checksum `c`
(used to state P2's "exactly one object for that checksum"). -/
def objectsWithChecksum (hash : List Nat → String) (store : Store) (c : String) :
    List (String × List Nat) :=
  store.filter (fun kv => hash kv.2 = c)

/-! ### sqlc query layer over `files` (internal/db/queries/files.sql)

The sqlc-generated Go package `internal/database` is not part of the
source tree (only the `.sql` query definitions and their callers are).
Each query below is translated from its SQL text; following the spec's
contract for the generated layer — "Every write that mutates a versioned
entity MUST filter by the caller-supplied `version` and report *no row*
if unmatched" — an unmatched guarded write surfaces as `none`, which the
service layer receives as `sql.ErrNoRows`. -/

/-- Result row of `GetFileByChecksum` (`count(checksum), storage_key`). -/
structure ChecksumRow where
  count : Nat
  storageKey : String
deriving DecidableEq, Repr

/-- `GetFileByChecksum :one` — rows with the given checksum and owner and
`is_deleted = false`, grouped by `storage_key`; `none` models
`sql.ErrNoRows` when no row matches. -/
def getFileByChecksum (files : List FileRow) (checksum : String) (userId : Nat) :
    Option ChecksumRow :=
  match files.filter
      (fun f => f.checksum = checksum ∧ f.userId = userId ∧ f.isDeleted = false) with
  | [] => none
  | r :: rest =>
    some { count := ((r :: rest).filter (fun g => g.storageKey = r.storageKey)).length
           storageKey := r.storageKey }

/-- `CreateFile :one` — insert with schema defaults
(`visibility 'private'`, `is_deleted false`, `version 0`), returning the row. -/
def createFile (files : List FileRow) (newId : Nat) (userId : Nat)
    (filename storageKey mimeType : String) (sizeBytes : Int) (checksum : String) :
    List FileRow × FileRow :=
  let row : FileRow :=
    { fileId := newId, userId := userId, filename := filename
      storageKey := storageKey, mimeType := mimeType, sizeBytes := sizeBytes
      visibility := .priv, thumbnailKey := none, checksum := checksum
      isDeleted := false, deletedAt := none, version := 0 }
  (files ++ [row], row)

/-- `GetFileInfo :one` — the row with the given primary key and
`is_deleted = false`; `none` models `sql.ErrNoRows`. -/
def getFileInfo (files : List FileRow) (fileId : Nat) : Option FileRow :=
  files.find? (fun f => f.isDeleted = false ∧ f.fileId = fileId)

/-- Guard of every versioned `files` mutation:
`where file_id = $… and version = $…`. -/
def versionGuard (fileId : Nat) (version : Int) (f : FileRow) : Bool :=
  f.fileId = fileId ∧ f.version = version

/-- `SetFileVisibility :one` — `set visibility = $1, version = version + 1
where file_id = $2 and version = $3 returning visibility`;
`none` models the no-row optimistic-concurrency signal. -/
def dbSetFileVisibility (files : List FileRow) (vis : FileVisibility)
    (fileId : Nat) (version : Int) : Option (List FileRow × FileVisibility) :=
  match files.find? (versionGuard fileId version) with
  | none => none
  | some _ =>
    some (files.map (fun f =>
      if versionGuard fileId version f then
        { f with visibility := vis, version := f.version + 1 }
      else f), vis)

/-- `UpdateFileName` — `set filename = $1, version = version + 1,
updated_at = now() where file_id = $2 and version = $3`, reporting the new
name to the service; `none` models the no-row signal. -/
def dbUpdateFileName (files : List FileRow) (filename : String)
    (fileId : Nat) (version : Int) : Option (List FileRow × String) :=
  match files.find? (versionGuard fileId version) with
  | none => none
  | some _ =>
    some (files.map (fun f =>
      if versionGuard fileId version f then
        { f with filename := filename, version := f.version + 1 }
      else f), filename)

/-- `DeleteFile` — `set is_deleted = true, deleted_at = $1,
version = version + 1 where file_id = $2 and version = $3`;
`none` models the no-row signal. -/
def dbDeleteFile (files : List FileRow) (deletedAt : Int)
    (fileId : Nat) (version : Int) : Option (List FileRow) :=
  match files.find? (versionGuard fileId version) with
  | none => none
  | some _ =>
    some (files.map (fun f =>
      if versionGuard fileId version f then
        { f with isDeleted := true, deletedAt := some deletedAt,
                 version := f.version + 1 }
      else f))

/-! ### File service (internal/files/service.go) -/

/-- `FileVisibility` rendered as Go's `string(newVisibility)`. -/
def FileVisibility.toGoString : FileVisibility → String
  | .public => "public"
  | .priv => "private"

/-- `FileService.SetFileVisibility`: a `sql.ErrNoRows` from the guarded
update becomes `utils.ErrRecordNotFound`; success returns the new
visibility string and the updated table. -/
def svcSetFileVisibility (files : List FileRow) (fileId : Nat) (version : Int)
    (vis : FileVisibility) : List FileRow × Except Err String :=
  match dbSetFileVisibility files vis fileId version with
  | none => (files, .error .recordNotFound)
  | some (files', newVis) => (files', .ok newVis.toGoString)

/-- `FileService.UpdateFileName`: same shape as `SetFileVisibility`. -/
def svcUpdateFileName (files : List FileRow) (fileId : Nat) (filename : String)
    (version : Int) : List FileRow × Except Err String :=
  match dbUpdateFileName files filename fileId version with
  | none => (files, .error .recordNotFound)
  | some (files', newName) => (files', .ok newName)

/-- `FileService.DeleteFile`: soft delete with
`deleted_at = now + 7*24h`; the no-row signal again becomes
`utils.ErrRecordNotFound`. -/
def svcDeleteFile (files : List FileRow) (fileId : Nat) (version : Int)
    (now : Int) : List FileRow × Except Err Unit :=
  match dbDeleteFile files (now + 7 * 24 * 60 * 60) fileId version with
  | none => (files, .error .recordNotFound)
  | some files' => (files', .ok ())

/-- `FileService.GetFileMetadata`: loads via `GetFileInfo`
(`is_deleted = false`); `sql.ErrNoRows` becomes `utils.ErrRecordNotFound`;
then `if file.OwnerID != userID` the service returns
`utils.ErrAuthRequired` — there is no visibility exemption. -/
def svcGetFileMetadata (files : List FileRow) (fileId userId : Nat) :
    Except Err FileRow :=
  match getFileInfo files fileId with
  | none => .error .recordNotFound
  | some file =>
    if file.userId ≠ userId then .error .authRequired
    else .ok file

/-! ### Upload pipeline (FileService.UploadFile, internal/files/service.go) -/

/-- Whole backend state touched by `UploadFile`: the `files` table, the
object store, and the asynq jobs enqueued so far
(`generate_thumbnail` payloads `(file_id, storage_key)`). -/
structure SysState where
  files : List FileRow
  store : Store
  jobs : List (Nat × String)
deriving DecidableEq, Repr

/-- `strings.HasPrefix(s, p)` (used for the `image/` content-type test). -/
def goHasPrefix (s p : String) : Bool :=
  p.data.isPrefixOf s.data

/-- Outcome of the `s.db.GetFileByChecksum` round trip as the service sees
it: a row, `sql.ErrNoRows`, or a database failure. -/
inductive DedupOutcome
  | found (r : ChecksumRow)
  | noRows
  | dbFailure
deriving DecidableEq, Repr

/-- The honest dedup round trip over the modelled table. -/
def dedupOf (files : List FileRow) (checksum : String) (userId : Nat) :
    DedupOutcome :=
  match getFileByChecksum files checksum userId with
  | none => .noRows
  | some r => .found r

/-- `FileService.UploadFile`, translated line by line.

 * `hash` stands for the SHA-256 hex digest of the teed stream;
 * `storageKey` is the fresh `users/<owner>/<uuid><ext>` key and `newFileId`
   the fresh row id (`uuid.New()` made explicit);
 * the `Save` I/O is the disk backend writing the whole stream (its error
   arm, which deletes the key and returns `storage error`, is not reachable
   in the disk model); the `CreateFile` insert is likewise modelled as
   succeeding;
 * `dedup` is the outcome of the `GetFileByChecksum` round trip — the
   service discards its error (`existingFile, _ := …`), so `noRows` and
   `dbFailure` both leave `existingFile.Count` at the zero value `0`. -/
def uploadFile (hash : List Nat → String) (st : SysState) (userID : Nat)
    (stream : List Nat) (contentType fileName : String) (maxUploadSize : Int)
    (storageKey : String) (newFileId : Nat) (dedup : DedupOutcome) :
    SysState × Except Err FileRow :=
  -- fileSize, err := s.store.Save(tee, storageKey)
  let store1 := storeSave st.store storageKey stream
  let fileSize : Int := stream.length
  if fileSize > maxUploadSize then
    -- _ = s.store.Delete(storageKey); return "file size is too large"
    ({ st with store := storeDelete store1 storageKey }, .error .tooLarge)
  else
    -- checksum := hex.EncodeToString(hasher.Sum(nil))
    let checksum := hash stream
    -- existingFile, _ := s.db.GetFileByChecksum(…)
    let existingCount : Nat :=
      match dedup with
      | .found r => r.count
      | .noRows => 0
      | .dbFailure => 0
    if existingCount > 0 then
      -- _ = s.store.Delete(storageKey); return utils.ErrDuplicateUpload
      ({ st with store := storeDelete store1 storageKey },
       .error .duplicateUpload)
    else
      -- fileRec, err := s.db.CreateFile(ctx, params)
      let (files1, fileRec) :=
        createFile st.files newFileId userID fileName storageKey contentType
          fileSize checksum
      -- image uploads enqueue a generate_thumbnail task
      let jobs1 :=
        if goHasPrefix contentType "image/" then st.jobs ++ [(newFileId, storageKey)]
        else st.jobs
      ({ files := files1, store := store1, jobs := jobs1 }, .ok fileRec)

/-- `UploadFile` with the honest dedup round trip (the checksum handed to
`GetFileByChecksum` is the digest of the saved stream). -/
def uploadFileRun (hash : List Nat → String) (st : SysState) (userID : Nat)
    (stream : List Nat) (contentType fileName : String) (maxUploadSize : Int)
    (storageKey : String) (newFileId : Nat) : SysState × Except Err FileRow :=
  uploadFile hash st userID stream contentType fileName maxUploadSize
    storageKey newFileId (dedupOf st.files (hash stream) userID)

/-! ### Access tokens (internal/auth/service.go, golang-jwt/jwt/v5) -/

/-- JWT claim values as used by `jwt.MapClaims` here: strings and Unix
timestamps. -/
inductive ClaimValue
  | str (s : String)
  | int (n : Int)
deriving DecidableEq, Repr

/-- Signing algorithms relevant to the validator's
`token.Method.(*jwt.SigningMethodHMAC)` check. -/
inductive Alg
  | hs256
  | hs384
  | hs512
  | rs256
  | none_
deriving DecidableEq, Repr

/-- The HMAC family accepted by the keyfunc. -/
def Alg.isHMAC : Alg → Bool
  | .hs256 | .hs384 | .hs512 => true
  | _ => false

/-- A parsed JWT: header algorithm, claim map, and signature tag. The
signature of a well-formed token is the MAC of the secret over the
serialized header+payload, which the serialization determines from
`(alg, claims)`. -/
structure Token where
  alg : Alg
  claims : List (String × ClaimValue)
  sig : Nat
deriving DecidableEq, Repr

/-- First value bound to a claim name (`jwt.MapClaims` lookup). -/
def lookupClaim (claims : List (String × ClaimValue)) (name : String) :
    Option ClaimValue :=
  (claims.find? (fun kv => kv.1 = name)).map (fun kv => kv.2)

/-- The claim map built by `AuthService.generateAccessToken`:
exactly `sub`, `first_name`, `last_name`, `email`, `exp`, `iat`. -/
def accessTokenClaims (userID : Nat) (firstName lastName email : String)
    (iat exp : Int) : List (String × ClaimValue) :=
  [("sub", .str (toString userID)),
   ("first_name", .str firstName),
   ("last_name", .str lastName),
   ("email", .str email),
   ("exp", .int exp),
   ("iat", .int iat)]

/-- `AuthService.generateAccessToken`: `jwt.NewWithClaims(SigningMethodHS256,
claims)` signed with the configured secret; `mac secret (alg, claims)`
models `token.SignedString(s.jwtSecret)`. -/
def generateAccessToken (mac : Nat → Alg × List (String × ClaimValue) → Nat)
    (secret : Nat) (userID : Nat) (firstName lastName email : String)
    (iat exp : Int) : Token :=
  let claims := accessTokenClaims userID firstName lastName email iat exp
  { alg := .hs256, claims := claims, sig := mac secret (.hs256, claims) }

/-- `AuthService.ValidateToken` over `jwt.Parse` (golang-jwt v5):
the keyfunc rejects non-HMAC methods (`ErrInvalidToken`), then the
signature is verified against the secret (failure is not
`jwt.ErrTokenExpired`, so the service maps it to `ErrInvalidToken`), then
claim validation checks `exp` (an `exp` in the past yields
`jwt.ErrTokenExpired`, mapped to `ErrExpiredToken`; a malformed `exp` is a
claims error, mapped to `ErrInvalidToken`). On success the full claim map
is returned. -/
def validateToken (mac : Nat → Alg × List (String × ClaimValue) → Nat)
    (secret : Nat) (now : Int) (tok : Token) :
    Except Err (List (String × ClaimValue)) :=
  if tok.alg.isHMAC = false then .error .invalidToken
  else if tok.sig ≠ mac secret (tok.alg, tok.claims) then .error .invalidToken
  else
    match lookupClaim tok.claims "exp" with
    | none => .ok tok.claims
    | some (.int e) => if e < now then .error .expiredToken else .ok tok.claims
    | some (.str _) => .error .invalidToken

/-! ### Refresh flow (AuthService.RefreshAccessToken) -/

/-- Row of `refresh_tokens` (001_base.sql). -/
structure RefreshTokenRow where
  userId : Nat
  token : String
  expiresAt : Int
  revoked : Bool
deriving DecidableEq, Repr

/-- `GetRefreshToken :one` — lookup by the opaque token string. -/
def getRefreshToken (toks : List RefreshTokenRow) (t : String) :
    Option RefreshTokenRow :=
  toks.find? (fun r => r.token = t)

/-- Row of `users` as `RefreshAccessToken` reloads it. -/
structure UserRow where
  userId : Nat
  firstName : String
  lastName : String
  email : String
deriving DecidableEq, Repr

/-- `GetUserByID :one`. -/
def getUserByID (users : List UserRow) (uid : Nat) : Option UserRow :=
  users.find? (fun u => u.userId = uid)

/-- `AuthService.RefreshAccessToken`. `genResult` is the outcome of the
`s.generateAccessToken(…)` call (`token.SignedString` may fail, in which
case Go's `generateAccessToken` returns `("", err)`); the final statement
is `return accessToken, nil`, so the generation error is discarded. -/
def refreshAccessToken (toks : List RefreshTokenRow) (users : List UserRow)
    (now : Int) (refreshTokenString : String)
    (genResult : Except Unit String) : Except Err String :=
  match getRefreshToken toks refreshTokenString with
  | none => .error .invalidToken
  | some tok =>
    if tok.revoked then .error .invalidToken
    else if tok.expiresAt < now then .error .expiredToken
    else
      match getUserByID users tok.userId with
      | none => .error .unexpected
      | some _ =>
        -- accessToken, err := s.generateAccessToken(…); return accessToken, nil
        .ok (match genResult with
             | .error _ => ""
             | .ok s => s)

/-! ### API keys (internal/auth/apikey_service.go and internal/auth/types.go)

The repository carries two implementations of API-key validation:
`ApiKeyService.ValidateAPIKey` (apikey_service.go) and
`APIKeyService.ValidateAPIKey` (types.go). Both are embedded. -/

/-- `strings.Split(s, sep)` for a one-character separator (the only shape
used here: `" "` and `"_"`). -/
def goSplit (s : String) (sep : Char) : List String :=
  (s.data.splitOn sep).map String.mk

/-- `strings.SplitN(s, sep, n)` for `n > 0` and a one-character separator:
at most `n` substrings, the last one the unsplit remainder. -/
def goSplitN (s : String) (sep : Char) (n : Nat) : List String :=
  let parts := s.data.splitOn sep
  (if parts.length ≤ n then parts
   else parts.take (n - 1) ++ [List.intercalate [sep] (parts.drop (n - 1))]).map String.mk

/-- Row returned by `GetApiKeyByPrefix :one` (api_keys joined with users;
`pfx` is the key's `prefix` column, `expiresAt = 0` models Go's zero
`time.Time`). -/
structure ApiKeyJoinRow where
  apiKeyId : Nat
  userId : Nat
  keyHash : String
  pfx : String
  expiresAt : Int
  lastUsedAt : Option Int
  firstName : String
  lastName : String
  email : String
  role : String
  isVerified : Bool
deriving DecidableEq, Repr

/-- `GetApiKeyByPrefix :one` — lookup by prefix equality. -/
def getApiKeyByPfx (keys : List ApiKeyJoinRow) (p : String) :
    Option ApiKeyJoinRow :=
  keys.find? (fun k => k.pfx = p)

/-- `UpdateApiKeyLastUsed :exec` — `set last_used_at = $2 where
api_key_id = $1`. -/
def updateApiKeyLastUsed (keys : List ApiKeyJoinRow) (id : Nat) (t : Int) :
    List ApiKeyJoinRow :=
  keys.map (fun k => if k.apiKeyId = id then { k with lastUsedAt := some t } else k)

/-- `ApiKeyService.ValidateAPIKey` (apikey_service.go): splits into three
parts, requires the configured project prefix, looks the full prefix up by
equality, bcrypt-compares the secret (`verify hash secret`), then updates
`last_used_at` synchronously on the request path (its error discarded)
before returning the user id. It performs no expiry check. The returned
table is the api_keys table after the call. -/
def validateAPIKeyV1 (verify : String → String → Bool) (cfgPfx : String)
    (keys : List ApiKeyJoinRow) (now : Int) (keyString : String) :
    Except Err Nat × List ApiKeyJoinRow :=
  match goSplitN keyString '_' 3 with
  | [p0, p1, secret] =>
    if p0 ++ "_" ≠ cfgPfx then (.error .invalidApiKeyFormat, keys)
    else
      match getApiKeyByPfx keys (p0 ++ "_" ++ p1) with
      | none => (.error .invalidApiKey, keys)
      | some k =>
        if verify k.keyHash secret = false then (.error .invalidApiKey, keys)
        else
          -- _ = s.queries.UpdateApiKeyLastUsed(ctx, …)  (synchronous)
          (.ok k.userId, updateApiKeyLastUsed keys k.apiKeyId now)
  | _ => (.error .invalidApiKeyFormat, keys)

/-- `security.ContextUser` — the principal attached to a request. -/
structure ContextUser where
  firstName : String
  lastName : String
  email : String
  role : String
  userId : Nat
  isActivated : Bool
deriving DecidableEq, Repr

/-- `APIKeyService.ValidateAPIKey` (types.go): splits on the first `_`,
looks the prefix up by equality, rejects a non-zero `expires_at` in the
past, bcrypt-compares the secret, and hands the `last_used_at` update to
`worker.BackgroundTask` — the second component lists the api_key_ids whose
update was spawned in the background; the api_keys table itself is not
touched before the function returns its result. -/
def validateAPIKeyV2 (verify : String → String → Bool)
    (keys : List ApiKeyJoinRow) (now : Int) (keyString : String) :
    Except Err ContextUser × List Nat :=
  match goSplitN keyString '_' 2 with
  | [pfx, secret] =>
    match getApiKeyByPfx keys pfx with
    | none => (.error .invalidApiKey, [])
    | some k =>
      -- if !dBKey.ExpiresAt.IsZero() && time.Now().After(dBKey.ExpiresAt)
      if k.expiresAt ≠ 0 ∧ k.expiresAt < now then (.error .apiKeyExpired, [])
      else if verify k.keyHash secret = false then (.error .invalidApiKey, [])
      else
        (.ok { firstName := k.firstName, lastName := k.lastName
               email := k.email, role := k.role, userId := k.userId
               isActivated := k.isVerified },
         [k.apiKeyId])
  | _ => (.error .invalidApiKeyFormat, [])

/-! ### Authentication middleware (internal/middlewares/middleware.go)

The file carries two `AuthMiddleware` variants; both are embedded. The
bearer and api-key validators are passed in as functions producing a
principal or an error. -/

/-- What the middleware does with a request: reply 401, or pass it on with
a principal in the context. -/
inductive MwOutcome
  | unauthorized (msg : String)
  | nextAnonymous
  | nextUser (u : ContextUser)
deriving DecidableEq, Repr

/-- Go error strings of the `Err` constructors (`err.Error()`). -/
def Err.goMessage : Err → String
  | .recordNotFound => "the record does not exist"
  | .editConflict => "edit confict"
  | .authRequired => "authentication is required to access this resource"
  | .notPermitted => "you do not have the permission to access this resource"
  | .duplicateUpload => "file already exists"
  | .unexpected => "a server error occured while processing the request. Our team has been notified"
  | .tooLarge => "file size is too large"
  | .storageError => "storage error"
  | .invalidToken => "invalid token"
  | .expiredToken => "token has expired"
  | .invalidApiKeyFormat => "invalid api key format"
  | .invalidApiKey => "invalid api key"
  | .apiKeyExpired => "api key has expired"

/-- First `AuthMiddleware` variant (middleware.go, the undocumented one):
an absent `Authorization` header is rejected with 401
"authorization header required"; a header that does not split on a single
space into two parts gets 401 "invalid authorization format"; schemes
other than `Bearer`/`ApiKey` get 401 "unsupported authorization scheme". -/
def authMiddlewareV1 (validateBearer : String → Except Err ContextUser)
    (validateApiKey : String → Except Err ContextUser)
    (authHeader : String) : MwOutcome :=
  if authHeader = "" then .unauthorized "authorization header required"
  else
    match goSplit authHeader ' ' with
    | [scheme, credential] =>
      if scheme = "Bearer" then
        match validateBearer credential with
        | .error e =>
          if e = .expiredToken then .unauthorized "token has expired"
          else .unauthorized "invalid or expired token"
        | .ok u => .nextUser u
      else if scheme = "ApiKey" then
        match validateApiKey credential with
        | .error e => .unauthorized e.goMessage
        | .ok u => .nextUser u
      else .unauthorized "unsupported authorization scheme"
    | _ => .unauthorized "invalid authorization format"

/-- Second `AuthMiddleware` variant (middleware.go, the doc-commented one):
identical except that an absent header attaches `security.AnonymousUser`
and forwards the request, and the non-expired bearer failure echoes
`err.Error()`. -/
def authMiddlewareV2 (validateBearer : String → Except Err ContextUser)
    (validateApiKey : String → Except Err ContextUser)
    (authHeader : String) : MwOutcome :=
  if authHeader = "" then .nextAnonymous
  else
    match goSplit authHeader ' ' with
    | [scheme, credential] =>
      if scheme = "Bearer" then
        match validateBearer credential with
        | .error e =>
          if e = .expiredToken then .unauthorized "token has expired"
          else .unauthorized e.goMessage
        | .ok u => .nextUser u
      else if scheme = "ApiKey" then
        match validateApiKey credential with
        | .error e => .unauthorized e.goMessage
        | .ok u => .nextUser u
      else .unauthorized "unsupported authorization scheme"
    | _ => .unauthorized "invalid authorization format"

/-! ### Helper lemmas about the object store and the dedup query -/

instance {ε α : Type} [DecidableEq ε] [DecidableEq α] : DecidableEq (Except ε α) :=
  fun a b =>
    match a, b with
    | .error e, .error e' =>
      if h : e = e' then isTrue (h ▸ rfl)
      else isFalse (fun hc => h (Except.error.inj hc))
    | .ok v, .ok v' =>
      if h : v = v' then isTrue (h ▸ rfl)
      else isFalse (fun hc => h (Except.ok.inj hc))
    | .error _, .ok _ => isFalse (fun hc => Except.noConfusion hc)
    | .ok _, .error _ => isFalse (fun hc => Except.noConfusion hc)

theorem storeGet_storeDelete (s : Store) (k : String) :
    storeGet (storeDelete s k) k = none := by
  unfold storeGet storeDelete
  rw [Option.map_eq_none']
  rw [List.find?_eq_none]
  intro kv hkv
  have h := List.of_mem_filter hkv
  simp only [ne_eq, decide_not, Bool.not_eq_true', decide_eq_false_iff_not] at h
  simpa using h

theorem filter_ne_key_of_fresh (s : Store) (k : String)
    (h : ∀ kv ∈ s, kv.1 ≠ k) : s.filter (fun kv => kv.1 ≠ k) = s := by
  rw [List.filter_eq_self]
  intro a ha
  simpa using h a ha

theorem storeSave_fresh (s : Store) (k : String) (v : List Nat)
    (h : ∀ kv ∈ s, kv.1 ≠ k) : storeSave s k v = s ++ [(k, v)] := by
  unfold storeSave
  rw [filter_ne_key_of_fresh s k h]

theorem storeDelete_storeSave_fresh (s : Store) (k : String) (v : List Nat)
    (h : ∀ kv ∈ s, kv.1 ≠ k) : storeDelete (storeSave s k v) k = s := by
  unfold storeDelete storeSave
  rw [List.filter_append, filter_ne_key_of_fresh s k h, filter_ne_key_of_fresh s k h]
  simp

theorem storeGet_storeSave_self (s : Store) (k : String) (v : List Nat) :
    storeGet (storeSave s k v) k = some v := by
  unfold storeGet storeSave
  rw [List.find?_append]
  have h1 : (s.filter (fun kv => kv.1 ≠ k)).find? (fun kv => kv.1 = k) = none := by
    rw [List.find?_eq_none]
    intro kv hkv
    have h := List.of_mem_filter hkv
    simp only [ne_eq, decide_not, Bool.not_eq_true', decide_eq_false_iff_not] at h
    simpa using h
  rw [h1]
  simp [List.find?]

theorem getFileByChecksum_none_iff (files : List FileRow) (checksum : String)
    (userId : Nat) :
    getFileByChecksum files checksum userId = none ↔
      files.filter
        (fun f => f.checksum = checksum ∧ f.userId = userId ∧ f.isDeleted = false)
        = [] := by
  unfold getFileByChecksum
  cases h : files.filter
      (fun f => f.checksum = checksum ∧ f.userId = userId ∧ f.isDeleted = false) with
  | nil => simp [h]
  | cons r t => simp [h]

/-! ### Sample rows used by witnesses and counterexamples -/

/-- A live private file owned by user 1, at version 0. -/
def sampleFile : FileRow :=
  { fileId := 1, userId := 1, filename := "notes.txt", storageKey := "users/1/k1"
    mimeType := "text/plain", sizeBytes := 3, visibility := .priv
    thumbnailKey := none, checksum := "c1", isDeleted := false
    deletedAt := none, version := 0 }

/-- A live public file owned by user 1. -/
def samplePublicFile : FileRow :=
  { sampleFile with fileId := 2, storageKey := "users/1/k2", checksum := "c2"
                    visibility := .public }

/-! ### C1 — optimistic versioning of the file mutations -/

/-- C1 (amended): for each file mutation (`SetFileVisibility`,
`UpdateFileName`, `DeleteFile`), an expected version that matches no row
leaves the `files` table unchanged and surfaces as `utils.ErrRecordNotFound`
— the no-row optimistic-concurrency signal mapped by the service, not
`utils.ErrEditConflict` — while a matching expected version applies the
mutation and increments the matched row's `version` by exactly one. -/
theorem C1_versioned_mutations (files : List FileRow) (fileId : Nat)
    (version : Int) (vis : FileVisibility) (name : String) (now : Int) :
    (files.find? (versionGuard fileId version) = none →
        svcSetFileVisibility files fileId version vis
          = (files, .error .recordNotFound)
      ∧ svcUpdateFileName files fileId name version
          = (files, .error .recordNotFound)
      ∧ svcDeleteFile files fileId version now
          = (files, .error .recordNotFound))
  ∧ (∀ r, files.find? (versionGuard fileId version) = some r →
        svcSetFileVisibility files fileId version vis
          = (files.map (fun f =>
              if versionGuard fileId version f then
                { f with visibility := vis, version := f.version + 1 }
              else f),
             .ok vis.toGoString)
      ∧ svcUpdateFileName files fileId name version
          = (files.map (fun f =>
              if versionGuard fileId version f then
                { f with filename := name, version := f.version + 1 }
              else f),
             .ok name)
      ∧ svcDeleteFile files fileId version now
          = (files.map (fun f =>
              if versionGuard fileId version f then
                { f with isDeleted := true
                         deletedAt := some (now + 7 * 24 * 60 * 60)
                         version := f.version + 1 }
              else f),
             .ok ())) := by
  constructor
  · intro h
    refine ⟨?_, ?_, ?_⟩ <;>
      simp [svcSetFileVisibility, dbSetFileVisibility, svcUpdateFileName,
        dbUpdateFileName, svcDeleteFile, dbDeleteFile, h]
  · intro r h
    refine ⟨?_, ?_, ?_⟩ <;>
      simp [svcSetFileVisibility, dbSetFileVisibility, svcUpdateFileName,
        dbUpdateFileName, svcDeleteFile, dbDeleteFile, h]

/-- C1 witness: on a one-row table at version 0, an update with expected
version 0 succeeds and bumps the row to version 1; the mismatch arm is
exercised by the counterexample below. -/
theorem C1_versioned_mutations_witness :
    svcSetFileVisibility [sampleFile] 1 0 .public
      = ([sampleFile].map (fun f =>
          if versionGuard 1 0 f then
            { f with visibility := FileVisibility.public, version := f.version + 1 }
          else f),
         .ok FileVisibility.public.toGoString) :=
  ((C1_versioned_mutations [sampleFile] 1 0 .public "n" 0).2 sampleFile
    (by decide)).1

/-- C1 counterexample: a version mismatch (row at version 0, expected
version 5) makes `SetFileVisibility` return `utils.ErrRecordNotFound`, not
the edit-conflict error the claim names; the row is left unchanged. -/
theorem C1_counterexample :
    svcSetFileVisibility [sampleFile] 1 5 .public
        = ([sampleFile], .error .recordNotFound)
  ∧ (svcSetFileVisibility [sampleFile] 1 5 .public).2
        ≠ .error .editConflict := by
  constructor
  · rfl
  · decide

/-! ### C4 — metadata read path -/

/-- C4 (amended): `GetFileMetadata` maps a missing live row to
`utils.ErrRecordNotFound`, returns the row when the caller is the owner,
and returns `utils.ErrAuthRequired` for every non-owner caller — including
callers asking for a `public` file: the service checks only
`file.OwnerID != userID` and never consults `visibility`. -/
theorem C4_get_file_metadata (files : List FileRow) (fileId userId : Nat) :
    (getFileInfo files fileId = none →
      svcGetFileMetadata files fileId userId = .error .recordNotFound)
  ∧ (∀ f, getFileInfo files fileId = some f →
        (f.userId = userId → svcGetFileMetadata files fileId userId = .ok f)
      ∧ (f.userId ≠ userId →
          svcGetFileMetadata files fileId userId = .error .authRequired)) := by
  constructor
  · intro h
    simp [svcGetFileMetadata, h]
  · intro f h
    constructor
    · intro howner
      simp [svcGetFileMetadata, h, howner]
    · intro howner
      simp [svcGetFileMetadata, h, howner]

/-- C4 witness: the owner (user 1) of the live private file gets the row
back; the missing-row arm gives `recordNotFound` at file id 9. -/
theorem C4_get_file_metadata_witness :
    svcGetFileMetadata [sampleFile] 1 1 = .ok sampleFile
  ∧ svcGetFileMetadata [sampleFile] 9 1 = .error .recordNotFound :=
  ⟨((C4_get_file_metadata [sampleFile] 1 1).2 sampleFile (by decide)).1 rfl,
   (C4_get_file_metadata [sampleFile] 9 1).1 (by decide)⟩

/-- C4 counterexample: user 2 asks for the live `public` file owned by
user 1; the claim says the row is returned, but `GetFileMetadata` returns
`utils.ErrAuthRequired` because its owner check ignores visibility. -/
theorem C4_counterexample :
    samplePublicFile.visibility = .public
  ∧ samplePublicFile.isDeleted = false
  ∧ getFileInfo [samplePublicFile] 2 = some samplePublicFile
  ∧ svcGetFileMetadata [samplePublicFile] 2 2 = .error .authRequired
  ∧ svcGetFileMetadata [samplePublicFile] 2 2 ≠ .ok samplePublicFile := by
  refine ⟨rfl, rfl, by decide, by decide, by decide⟩

/-! ### C5 — oversized uploads -/

/-- C5: when the total stream length exceeds the max-upload-size ceiling,
`UploadFile` fails with the too-large error, the object written by `Save`
is deleted again (no object remains at its key), and no file row is
inserted. -/
theorem C5_too_large (hash : List Nat → String) (st : SysState) (userID : Nat)
    (stream : List Nat) (contentType fileName : String) (maxUploadSize : Int)
    (storageKey : String) (newFileId : Nat)
    (hbig : (stream.length : Int) > maxUploadSize) :
    uploadFileRun hash st userID stream contentType fileName maxUploadSize
        storageKey newFileId
      = ({ st with store := storeDelete (storeSave st.store storageKey stream)
                              storageKey },
         .error .tooLarge)
  ∧ storeGet (uploadFileRun hash st userID stream contentType fileName
        maxUploadSize storageKey newFileId).1.store storageKey = none
  ∧ (uploadFileRun hash st userID stream contentType fileName maxUploadSize
        storageKey newFileId).1.files = st.files := by
  have hmain : uploadFileRun hash st userID stream contentType fileName
      maxUploadSize storageKey newFileId
      = ({ st with store := storeDelete (storeSave st.store storageKey stream)
                              storageKey },
         .error .tooLarge) := by
    simp [uploadFileRun, uploadFile, hbig]
  refine ⟨hmain, ?_, ?_⟩
  · rw [hmain]
    exact storeGet_storeDelete _ _
  · rw [hmain]

/-- C5 witness: a 3-byte stream against a 2-byte ceiling on an empty
backend — the upload errors, the key holds no object, no row exists. -/
theorem C5_too_large_witness :
    storeGet (uploadFileRun (fun _ => "h") ⟨[], [], []⟩ 1 [7, 7, 7] "text/plain"
        "a.txt" 2 "users/1/x" 5).1.store "users/1/x" = none
  ∧ (uploadFileRun (fun _ => "h") ⟨[], [], []⟩ 1 [7, 7, 7] "text/plain"
        "a.txt" 2 "users/1/x" 5).1.files = [] :=
  ⟨(C5_too_large (fun _ => "h") ⟨[], [], []⟩ 1 [7, 7, 7] "text/plain" "a.txt" 2
      "users/1/x" 5 (by decide)).2.1,
   (C5_too_large (fun _ => "h") ⟨[], [], []⟩ 1 [7, 7, 7] "text/plain" "a.txt" 2
      "users/1/x" 5 (by decide)).2.2⟩

/-! ### C10 — dedup lookup failure is discarded -/

/-- C10: when the `GetFileByChecksum` round trip fails, `UploadFile`
discards the error (`existingFile, _ := …`) and behaves exactly as if the
lookup had found no duplicate: the run equals the no-rows run, the call
succeeds, the new row is inserted, and the saved object is kept. -/
theorem C10_dedup_failure_discarded (hash : List Nat → String) (st : SysState)
    (userID : Nat) (stream : List Nat) (contentType fileName : String)
    (maxUploadSize : Int) (storageKey : String) (newFileId : Nat)
    (hsize : ¬ (stream.length : Int) > maxUploadSize) :
    uploadFile hash st userID stream contentType fileName maxUploadSize
        storageKey newFileId .dbFailure
      = uploadFile hash st userID stream contentType fileName maxUploadSize
          storageKey newFileId .noRows
  ∧ (uploadFile hash st userID stream contentType fileName maxUploadSize
        storageKey newFileId .dbFailure).2
      = .ok (createFile st.files newFileId userID fileName storageKey
          contentType (stream.length : Int) (hash stream)).2
  ∧ (uploadFile hash st userID stream contentType fileName maxUploadSize
        storageKey newFileId .dbFailure).1.files
      = (createFile st.files newFileId userID fileName storageKey
          contentType (stream.length : Int) (hash stream)).1
  ∧ storeGet (uploadFile hash st userID stream contentType fileName
        maxUploadSize storageKey newFileId .dbFailure).1.store storageKey
      = some stream := by
  refine ⟨rfl, ?_, ?_, ?_⟩
  · simp [uploadFile, hsize, createFile]
  · simp [uploadFile, hsize, createFile]
  · have hst : (uploadFile hash st userID stream contentType fileName
        maxUploadSize storageKey newFileId .dbFailure).1.store
        = storeSave st.store storageKey stream := by
      simp [uploadFile, hsize]
    rw [hst]
    exact storeGet_storeSave_self _ _ _

/-- C10 witness: an in-range upload with a failing dedup lookup still
inserts the row and keeps the object. -/
theorem C10_dedup_failure_discarded_witness :
    (uploadFile (fun _ => "h") ⟨[], [], []⟩ 1 [7] "text/plain" "a.txt" 10
        "users/1/x" 5 .dbFailure).2
      = .ok (createFile [] 5 1 "a.txt" "users/1/x" "text/plain"
          ((1 : Nat) : Int) "h").2
  ∧ storeGet (uploadFile (fun _ => "h") ⟨[], [], []⟩ 1 [7] "text/plain" "a.txt"
        10 "users/1/x" 5 .dbFailure).1.store "users/1/x" = some [7] := by
  have h := C10_dedup_failure_discarded (fun _ => "h") ⟨[], [], []⟩ 1 [7]
    "text/plain" "a.txt" 10 "users/1/x" 5 (by decide)
  exact ⟨h.2.1, h.2.2.2⟩

/-! ### C2 — duplicate uploads of the same bytes by the same owner -/

/-- C2: starting from a state with no live `(owner, checksum)` row and no
object carrying that checksum, a first in-range upload of stream `S`
succeeds; a second upload of the same bytes by the same owner (under fresh
storage keys) returns `utils.ErrDuplicateUpload`, the object saved by the
second call is deleted, the `files` table gains no second row, and the
store holds exactly one object for that checksum — the first upload's. -/
theorem C2_duplicate_upload (hash : List Nat → String) (st0 : SysState)
    (owner : Nat) (stream : List Nat) (ct1 ct2 fn1 fn2 : String)
    (maxUploadSize : Int) (k1 k2 : String) (id1 id2 : Nat)
    (hsize : ¬ (stream.length : Int) > maxUploadSize)
    (hnodup : getFileByChecksum st0.files (hash stream) owner = none)
    (hk1 : ∀ kv ∈ st0.store, kv.1 ≠ k1)
    (hk2 : ∀ kv ∈ st0.store, kv.1 ≠ k2)
    (hkk : k1 ≠ k2)
    (hobj : objectsWithChecksum hash st0.store (hash stream) = []) :
    (uploadFileRun hash st0 owner stream ct1 fn1 maxUploadSize k1 id1).2
      = .ok (createFile st0.files id1 owner fn1 k1 ct1 (stream.length : Int)
          (hash stream)).2
  ∧ (uploadFileRun hash
        (uploadFileRun hash st0 owner stream ct1 fn1 maxUploadSize k1 id1).1
        owner stream ct2 fn2 maxUploadSize k2 id2).2 = .error .duplicateUpload
  ∧ storeGet (uploadFileRun hash
        (uploadFileRun hash st0 owner stream ct1 fn1 maxUploadSize k1 id1).1
        owner stream ct2 fn2 maxUploadSize k2 id2).1.store k2 = none
  ∧ objectsWithChecksum hash
      (uploadFileRun hash
        (uploadFileRun hash st0 owner stream ct1 fn1 maxUploadSize k1 id1).1
        owner stream ct2 fn2 maxUploadSize k2 id2).1.store (hash stream)
      = [(k1, stream)]
  ∧ (uploadFileRun hash
        (uploadFileRun hash st0 owner stream ct1 fn1 maxUploadSize k1 id1).1
        owner stream ct2 fn2 maxUploadSize k2 id2).1.files
      = (uploadFileRun hash st0 owner stream ct1 fn1 maxUploadSize k1 id1).1.files
    := by
  have hdedup0 : dedupOf st0.files (hash stream) owner = .noRows := by
    unfold dedupOf
    rw [hnodup]
  have hrun1 : uploadFileRun hash st0 owner stream ct1 fn1 maxUploadSize k1 id1
      = ({ files := (createFile st0.files id1 owner fn1 k1 ct1
             (stream.length : Int) (hash stream)).1,
           store := storeSave st0.store k1 stream,
           jobs := if goHasPrefix ct1 "image/" then st0.jobs ++ [(id1, k1)]
                   else st0.jobs },
         .ok (createFile st0.files id1 owner fn1 k1 ct1 (stream.length : Int)
           (hash stream)).2) := by
    simp [uploadFileRun, uploadFile, hdedup0, hsize, createFile]
  have hfilter0 := (getFileByChecksum_none_iff st0.files (hash stream) owner).mp
    hnodup
  have hdedup1 : dedupOf (createFile st0.files id1 owner fn1 k1 ct1
      (stream.length : Int) (hash stream)).1 (hash stream) owner
      = .found { count := 1, storageKey := k1 } := by
    unfold dedupOf getFileByChecksum
    rw [show (createFile st0.files id1 owner fn1 k1 ct1 (stream.length : Int)
          (hash stream)).1
        = st0.files ++ [(createFile st0.files id1 owner fn1 k1 ct1
            (stream.length : Int) (hash stream)).2] from rfl,
       List.filter_append, hfilter0]
    simp [createFile]
  have hrun2 : uploadFileRun hash
      { files := (createFile st0.files id1 owner fn1 k1 ct1
          (stream.length : Int) (hash stream)).1,
        store := storeSave st0.store k1 stream,
        jobs := if goHasPrefix ct1 "image/" then st0.jobs ++ [(id1, k1)]
                else st0.jobs }
      owner stream ct2 fn2 maxUploadSize k2 id2
      = ({ files := (createFile st0.files id1 owner fn1 k1 ct1
             (stream.length : Int) (hash stream)).1,
           store := storeDelete
             (storeSave (storeSave st0.store k1 stream) k2 stream) k2,
           jobs := if goHasPrefix ct1 "image/" then st0.jobs ++ [(id1, k1)]
                   else st0.jobs },
         .error .duplicateUpload) := by
    simp [uploadFileRun, uploadFile, hdedup1, hsize]
  have hs1 : storeSave st0.store k1 stream = st0.store ++ [(k1, stream)] :=
    storeSave_fresh _ _ _ hk1
  have hfresh2 : ∀ kv ∈ st0.store ++ [(k1, stream)], kv.1 ≠ k2 := by
    intro kv hkv
    rcases List.mem_append.mp hkv with h | h
    · exact hk2 kv h
    · rw [List.mem_singleton.mp h]
      exact hkk
  rw [hrun1, hrun2]
  refine ⟨rfl, rfl, ?_, ?_, rfl⟩
  · exact storeGet_storeDelete _ _
  · show objectsWithChecksum hash
      (storeDelete (storeSave (storeSave st0.store k1 stream) k2 stream) k2)
      (hash stream) = [(k1, stream)]
    rw [hs1, storeDelete_storeSave_fresh _ _ _ hfresh2]
    unfold objectsWithChecksum at hobj ⊢
    rw [List.filter_append, hobj]
    simp

/-- C2 witness: uploading the single byte `[7]` twice as user 1 over an
empty backend — the second call reports the duplicate and one object with
the checksum remains. -/
theorem C2_duplicate_upload_witness :
    (uploadFileRun (fun _ => "h")
        (uploadFileRun (fun _ => "h") ⟨[], [], []⟩ 1 [7] "text/plain" "a.txt"
          10 "users/1/a" 3).1
        1 [7] "text/plain" "b.txt" 10 "users/1/b" 4).2 = .error .duplicateUpload
  ∧ objectsWithChecksum (fun _ => "h")
      (uploadFileRun (fun _ => "h")
        (uploadFileRun (fun _ => "h") ⟨[], [], []⟩ 1 [7] "text/plain" "a.txt"
          10 "users/1/a" 3).1
        1 [7] "text/plain" "b.txt" 10 "users/1/b" 4).1.store "h"
      = [("users/1/a", [7])] := by
  have h := C2_duplicate_upload (fun _ => "h") ⟨[], [], []⟩ 1 [7] "text/plain"
    "text/plain" "a.txt" "b.txt" 10 "users/1/a" "users/1/b" 3 4
    (by decide) (by decide) (by decide) (by decide) (by decide) (by decide)
  exact ⟨h.2.1, h.2.2.2.1⟩

/-! ### C3 — minted access-token claims and validation payload -/

/-- C3 (amended): every access token minted by `generateAccessToken` (the
routine behind login and refresh) is signed with HMAC-SHA256 and carries
exactly the claims `sub`, `first_name`, `last_name`, `email`, `exp`, `iat`
— `role` and `is_verified` are NOT among them — and `ValidateToken` on an
unexpired such token succeeds with the full claim map, i.e. every minted
field and not merely the subject. -/
theorem C3_access_token_claims
    (mac : Nat → Alg × List (String × ClaimValue) → Nat) (secret : Nat)
    (userID : Nat) (firstName lastName email : String) (iat exp now : Int)
    (hexp : ¬ exp < now) :
    (generateAccessToken mac secret userID firstName lastName email iat exp).alg
      = .hs256
  ∧ (generateAccessToken mac secret userID firstName lastName email iat
      exp).claims.map Prod.fst
      = ["sub", "first_name", "last_name", "email", "exp", "iat"]
  ∧ lookupClaim (generateAccessToken mac secret userID firstName lastName email
      iat exp).claims "role" = none
  ∧ lookupClaim (generateAccessToken mac secret userID firstName lastName email
      iat exp).claims "is_verified" = none
  ∧ validateToken mac secret now
      (generateAccessToken mac secret userID firstName lastName email iat exp)
      = .ok (accessTokenClaims userID firstName lastName email iat exp)
  ∧ lookupClaim (accessTokenClaims userID firstName lastName email iat exp)
      "sub" = some (.str (toString userID))
  ∧ lookupClaim (accessTokenClaims userID firstName lastName email iat exp)
      "first_name" = some (.str firstName)
  ∧ lookupClaim (accessTokenClaims userID firstName lastName email iat exp)
      "last_name" = some (.str lastName)
  ∧ lookupClaim (accessTokenClaims userID firstName lastName email iat exp)
      "email" = some (.str email)
  ∧ lookupClaim (accessTokenClaims userID firstName lastName email iat exp)
      "exp" = some (.int exp)
  ∧ lookupClaim (accessTokenClaims userID firstName lastName email iat exp)
      "iat" = some (.int iat) := by
  refine ⟨rfl, rfl, ?_, ?_, ?_, ?_, ?_, ?_, ?_, ?_, ?_⟩ <;>
    simp [generateAccessToken, accessTokenClaims, validateToken, lookupClaim,
      Alg.isHMAC, List.find?, hexp]

/-- C3 witness: a concrete unexpired token round-trips through
`ValidateToken` with its full claim map. -/
theorem C3_access_token_claims_witness :
    validateToken (fun _ _ => 0) 0 50
        (generateAccessToken (fun _ _ => 0) 0 1 "A" "B" "a@b.c" 0 100)
      = .ok (accessTokenClaims 1 "A" "B" "a@b.c" 0 100) :=
  (C3_access_token_claims (fun _ _ => 0) 0 1 "A" "B" "a@b.c" 0 100 50
    (by decide)).2.2.2.2.1

/-- C3 counterexample: the claim map of a minted token has no `role` entry
and no `is_verified` entry, so the claimed claim set is wrong about the
code. -/
theorem C3_counterexample :
    lookupClaim (generateAccessToken (fun _ _ => 0) 0 1 "A" "B" "a@b.c" 0
      100).claims "role" = none
  ∧ lookupClaim (generateAccessToken (fun _ _ => 0) 0 1 "A" "B" "a@b.c" 0
      100).claims "is_verified" = none :=
  ⟨rfl, rfl⟩

/-! ### C8 — validation outcome trichotomy -/

/-- C8: `ValidateToken` returns the expired-token error on an HMAC-signed,
correctly-signed token whose `exp` is in the past; the invalid-token error
whenever the signature does not verify, and whenever the signing method is
not HMAC; and it succeeds exactly when the method is HMAC, the signature
verifies, and `exp` is not in the past — so the three failure outcomes
exclude success. -/
theorem C8_validate_token_outcomes
    (mac : Nat → Alg × List (String × ClaimValue) → Nat) (secret : Nat)
    (now : Int) (tok : Token) :
    (tok.alg.isHMAC = false →
      validateToken mac secret now tok = .error .invalidToken)
  ∧ (tok.sig ≠ mac secret (tok.alg, tok.claims) →
      validateToken mac secret now tok = .error .invalidToken)
  ∧ (∀ e, tok.alg.isHMAC = true →
      tok.sig = mac secret (tok.alg, tok.claims) →
      lookupClaim tok.claims "exp" = some (.int e) → e < now →
      validateToken mac secret now tok = .error .expiredToken)
  ∧ (∀ claims, validateToken mac secret now tok = .ok claims →
      claims = tok.claims
      ∧ tok.alg.isHMAC = true
      ∧ tok.sig = mac secret (tok.alg, tok.claims)
      ∧ ∀ e, lookupClaim tok.claims "exp" = some (.int e) → ¬ e < now) := by
  refine ⟨?_, ?_, ?_, ?_⟩
  · intro h
    simp [validateToken, h]
  · intro h
    simp [validateToken, h]
  · intro e halg hsig hlk hlt
    simp [validateToken, halg, hsig, hlk, hlt]
  · intro claims h
    have halg : tok.alg.isHMAC = true := by
      by_contra hc
      have hfalse : tok.alg.isHMAC = false := by
        cases hh : tok.alg.isHMAC
        · rfl
        · exact absurd hh hc
      simp [validateToken, hfalse] at h
    have hsig : tok.sig = mac secret (tok.alg, tok.claims) := by
      by_contra hc
      simp [validateToken, hc] at h
    refine ⟨?_, halg, hsig, ?_⟩
    · rcases hlk : lookupClaim tok.claims "exp" with _ | cv
      · simp [validateToken, halg, hsig, hlk] at h
        exact h.symm
      · cases cv with
        | str s => simp [validateToken, halg, hsig, hlk] at h
        | int e =>
          by_cases hlt : e < now
          · simp [validateToken, halg, hsig, hlk, hlt] at h
          · simp [validateToken, halg, hsig, hlk, hlt] at h
            exact h.symm
    · intro e hlk hlt
      simp [validateToken, halg, hsig, hlk, hlt] at h

/-- C8 witness: an RSA-signed token is rejected as invalid. -/
theorem C8_validate_token_outcomes_witness :
    validateToken (fun _ _ => 0) 0 0
        { alg := .rs256, claims := [], sig := 0 } = .error .invalidToken :=
  (C8_validate_token_outcomes (fun _ _ => 0) 0 0
    { alg := .rs256, claims := [], sig := 0 }).1 (by decide)

/-! ### C9 — refresh discards access-token-generation errors -/

/-- C9: for a known, unrevoked, unexpired refresh token whose user row
loads, `RefreshAccessToken` returns a nil error even when generating the
new access token fails, because `accessToken, err := s.generateAccessToken(…)`
is followed by `return accessToken, nil`; in that failure case the returned
access token is the empty string. -/
theorem C9_refresh_discards_generation_error (toks : List RefreshTokenRow)
    (users : List UserRow) (now : Int) (t : String) (tok : RefreshTokenRow)
    (u : UserRow) (e : Unit)
    (hfind : getRefreshToken toks t = some tok)
    (hrev : tok.revoked = false)
    (hexp : ¬ tok.expiresAt < now)
    (huser : getUserByID users tok.userId = some u) :
    refreshAccessToken toks users now t (.error e) = .ok "" := by
  simp [refreshAccessToken, hfind, hrev, hexp, huser]

/-- C9 witness: a live refresh token with a failing signer yields
`(ok, "")`. -/
theorem C9_refresh_discards_generation_error_witness :
    refreshAccessToken [⟨1, "r", 100, false⟩] [⟨1, "A", "B", "a@b.c"⟩] 50 "r"
      (.error ()) = .ok "" :=
  C9_refresh_discards_generation_error [⟨1, "r", 100, false⟩]
    [⟨1, "A", "B", "a@b.c"⟩] 50 "r" ⟨1, "r", 100, false⟩ ⟨1, "A", "B", "a@b.c"⟩
    () (by decide) rfl (by decide) (by decide)

/-! ### C6 — API-key validation -/

/-- An expired api_keys row (expires_at 5) under project prefix "fs_". -/
def sampleApiKeyExpired : ApiKeyJoinRow :=
  { apiKeyId := 1, userId := 7, keyHash := "sec", pfx := "fs_ab", expiresAt := 5
    lastUsedAt := none, firstName := "A", lastName := "B", email := "a@b.c"
    role := "user", isVerified := true }

/-- A live api_keys row expiring at time 1000. -/
def sampleApiKeyLive : ApiKeyJoinRow :=
  { apiKeyId := 2, userId := 9, keyHash := "h2", pfx := "fs9ab", expiresAt := 1000
    lastUsedAt := none, firstName := "A", lastName := "B", email := "a@b.c"
    role := "user", isVerified := true }

/-- C6 (amended): `APIKeyService.ValidateAPIKey` (types.go) rejects every
stored key whose non-zero `expires_at` lies in the past; for an unexpired
stored key presented as `prefix + "_" + secret` with the correct secret it
succeeds — identifying the key by splitting on the first `_` and looking
the prefix up by equality — returns the fully joined principal, and hands
the `last_used_at` write to a background task (the spawned-task list),
so the validation result is produced without performing that write. The
other implementation, `ApiKeyService.ValidateAPIKey` (apikey_service.go),
checks no expiry at all and updates `last_used_at` synchronously; the
counterexample exhibits it accepting an expired key. -/
theorem C6_api_key_validation (verify : String → String → Bool)
    (keys : List ApiKeyJoinRow) (now : Int) (keyString secret : String)
    (k : ApiKeyJoinRow) :
    (goSplitN keyString '_' 2 = [k.pfx, secret] →
     getApiKeyByPfx keys k.pfx = some k →
     k.expiresAt ≠ 0 → k.expiresAt < now →
     validateAPIKeyV2 verify keys now keyString = (.error .apiKeyExpired, []))
  ∧ (goSplitN keyString '_' 2 = [k.pfx, secret] →
     getApiKeyByPfx keys k.pfx = some k →
     ¬ (k.expiresAt ≠ 0 ∧ k.expiresAt < now) →
     verify k.keyHash secret = true →
     validateAPIKeyV2 verify keys now keyString
       = (.ok { firstName := k.firstName, lastName := k.lastName
                email := k.email, role := k.role, userId := k.userId
                isActivated := k.isVerified },
          [k.apiKeyId])) := by
  constructor
  · intro hsplit hfind hnz hlt
    simp [validateAPIKeyV2, hsplit, hfind, hnz, hlt]
  · intro hsplit hfind hne hver
    simp [validateAPIKeyV2, hsplit, hfind, hne, hver]

/-- C6 witness: an unexpired key presented as `fs9ab_s3` validates to the
joined principal and spawns the background `last_used_at` update. -/
theorem C6_api_key_validation_witness :
    validateAPIKeyV2 (fun _ _ => true) [sampleApiKeyLive] 100 "fs9ab_s3"
      = (.ok { firstName := "A", lastName := "B", email := "a@b.c"
               role := "user", userId := 9, isActivated := true },
         [2]) :=
  (C6_api_key_validation (fun _ _ => true) [sampleApiKeyLive] 100 "fs9ab_s3"
    "s3" sampleApiKeyLive).2 (by decide) (by decide) (by decide) rfl

/-- C6 counterexample: `ApiKeyService.ValidateAPIKey` (apikey_service.go)
accepts the stored key whose `expires_at` (5) is far past `now` (100) when
the correct secret is presented — no expiry check exists — and it mutates
`last_used_at` synchronously on the request path. -/
theorem C6_counterexample :
    sampleApiKeyExpired.expiresAt < 100
  ∧ (validateAPIKeyV1 (fun h s => h == s) "fs_" [sampleApiKeyExpired] 100
      "fs_ab_sec").1 = .ok 7
  ∧ (validateAPIKeyV1 (fun h s => h == s) "fs_" [sampleApiKeyExpired] 100
      "fs_ab_sec").2
      = [{ sampleApiKeyExpired with lastUsedAt := some 100 }] := by
  refine ⟨by decide, by decide, by decide⟩

/-! ### C7 — authentication middleware header handling -/

/-- C7 (amended): the doc-commented `AuthMiddleware` variant attaches the
anonymous principal and forwards the request when the `Authorization`
header is absent, while the other variant answers 401 in that case; in
both variants a present header that does not split on a space into exactly
two parts is answered 401, and a two-part header whose scheme is neither
`Bearer` nor `ApiKey` is answered 401. -/
theorem C7_auth_middleware (vb va : String → Except Err ContextUser)
    (hdr : String) :
    authMiddlewareV2 vb va "" = .nextAnonymous
  ∧ authMiddlewareV1 vb va "" = .unauthorized "authorization header required"
  ∧ (∀ parts, hdr ≠ "" → goSplit hdr ' ' = parts → parts.length ≠ 2 →
      authMiddlewareV1 vb va hdr = .unauthorized "invalid authorization format"
    ∧ authMiddlewareV2 vb va hdr = .unauthorized "invalid authorization format")
  ∧ (∀ scheme cred, hdr ≠ "" → goSplit hdr ' ' = [scheme, cred] →
      scheme ≠ "Bearer" → scheme ≠ "ApiKey" →
      authMiddlewareV1 vb va hdr
        = .unauthorized "unsupported authorization scheme"
    ∧ authMiddlewareV2 vb va hdr
        = .unauthorized "unsupported authorization scheme") := by
  refine ⟨rfl, rfl, ?_, ?_⟩
  · intro parts hne hparts hlen
    constructor
    · unfold authMiddlewareV1
      rw [if_neg hne, hparts]
      rcases parts with _ | ⟨a, _ | ⟨b, _ | ⟨c, t⟩⟩⟩
      · rfl
      · rfl
      · exact absurd rfl hlen
      · rfl
    · unfold authMiddlewareV2
      rw [if_neg hne, hparts]
      rcases parts with _ | ⟨a, _ | ⟨b, _ | ⟨c, t⟩⟩⟩
      · rfl
      · rfl
      · exact absurd rfl hlen
      · rfl
  · intro scheme cred hne hsplit hb ha
    constructor
    · unfold authMiddlewareV1
      rw [if_neg hne, hsplit]
      simp [hb, ha]
    · unfold authMiddlewareV2
      rw [if_neg hne, hsplit]
      simp [hb, ha]

/-- C7 witness: a header with an unknown scheme is answered 401 by both
variants. -/
theorem C7_auth_middleware_witness :
    authMiddlewareV1 (fun _ => .error .invalidToken)
        (fun _ => .error .invalidApiKey) "Token abc"
      = .unauthorized "unsupported authorization scheme"
  ∧ authMiddlewareV2 (fun _ => .error .invalidToken)
        (fun _ => .error .invalidApiKey) "Token abc"
      = .unauthorized "unsupported authorization scheme" :=
  (C7_auth_middleware (fun _ => .error .invalidToken)
    (fun _ => .error .invalidApiKey) "Token abc").2.2.2 "Token" "abc"
    (by decide) (by decide) (by decide) (by decide)

/-- C7 counterexample: with no `Authorization` header the undocumented
`AuthMiddleware` variant answers 401 instead of attaching the anonymous
principal and forwarding the request, refuting the claim as stated for
that variant. -/
theorem C7_counterexample :
    authMiddlewareV1 (fun _ => .error .invalidToken)
        (fun _ => .error .invalidApiKey) ""
      = .unauthorized "authorization header required"
  ∧ authMiddlewareV1 (fun _ => .error .invalidToken)
        (fun _ => .error .invalidApiKey) "" ≠ .nextAnonymous :=
  ⟨rfl, by decide⟩

end FileShare
